import Mathlib

/-!
Shallow embedding of the Fanout edge-gateway program (src/src/main.rs).
Request and response bodies are byte strings, modelled as `List Nat`;
every ASCII string literal of the source is turned into bytes with
`bytes`.  The handlers `grip_response`, `ws_text`, `ws_sub`,
`handle_test_ws`, `handle_test` and `handle_static` are translated
one-to-one from the Rust source; the routing logic of `main` is embedded
as the pure function `route`.
-/

/-- Definition of ASCII lowercasing of a single character, as Rust's
`eq_ignore_ascii_case` performs it: only the range A-Z is mapped. -/
def asciiLower (c : Char) : Char :=
  if 65 ≤ c.toNat ∧ c.toNat ≤ 90 then Char.ofNat (c.toNat + 32) else c

/-- Definition of Rust's `str::eq_ignore_ascii_case` on strings. -/
def eqIgnoreAsciiCase (a b : String) : Bool :=
  a.data.map asciiLower == b.data.map asciiLower

/-- Bytes of an ASCII string literal (all literals of the source are ASCII,
so the code point of each character is its byte value). -/
def bytes (s : String) : List Nat :=
  s.data.map Char.toNat

/-- HTTP request as the program observes it: scheme, host, path, a header
map queried case-insensitively by name, and a raw byte body.  The method
is carried along because the source never inspects it. -/
structure Request where
  method : String
  scheme : String
  host : Option String
  path : String
  headers : List (String × String)
  body : List Nat
deriving DecidableEq

/-- HTTP response produced by the program: status, headers, byte body. -/
structure Response where
  status : Nat
  headers : List (String × String)
  body : List Nat
deriving DecidableEq

/-- Case-insensitive header lookup, as `Request::get_header_str` performs
it (header names compare ASCII-case-insensitively, values are returned
verbatim; the first matching header is returned). -/
def getHeader (hs : List (String × String)) (name : String) : Option String :=
  (hs.find? (fun h => eqIgnoreAsciiCase h.fst name)).map Prod.snd

/-- Header lookup on a request. -/
def Request.header (req : Request) (name : String) : Option String :=
  getHeader req.headers name

/-- Header lookup on a response. -/
def Response.header (r : Response) (name : String) : Option String :=
  getHeader r.headers name

/-- Appending a header, as `Response::with_header` does. -/
def Response.withHeader (r : Response) (n v : String) : Response :=
  { r with headers := r.headers ++ [(n, v)] }

/-- Replacing the body, as `Response::with_body` / `set_body` do. -/
def Response.withBody (r : Response) (b : List Nat) : Response :=
  { r with body := b }

/-- Byte of one lowercase hexadecimal digit, as Rust's `{:x}` formatting
produces it: digits 0-9 are bytes 48-57, digits 10-15 are bytes 97-102. -/
def hexDigit (n : Nat) : Nat :=
  if n < 10 then 48 + n else 87 + n

/-- Fuel-driven helper for the hexadecimal representation; the fuel is
structurally consumed so the definition evaluates by reduction.  When the
fuel is at least the number the result is its minimal big-endian
hexadecimal digit string (empty for 0). -/
def hexRepAux : Nat → Nat → List Nat
  | _, 0 => []
  | 0, _ + 1 => []
  | f + 1, n + 1 => hexRepAux f ((n + 1) / 16) ++ [hexDigit ((n + 1) % 16)]

/-- Minimal lowercase hexadecimal representation of a positive number,
most significant digit first; the empty list for 0. -/
def hexRep (n : Nat) : List Nat :=
  hexRepAux n n

/-- Minimal lowercase hexadecimal representation, with 0 written as a
single digit (the output of Rust's `{:x}` format). -/
def lowercaseHex (n : Nat) : List Nat :=
  if n = 0 then [48] else hexRep n

/-- Output of Rust's `{:02x}` format: minimal lowercase hexadecimal,
zero-padded on the left to a minimum width of two digits. -/
def hex02 (n : Nat) : List Nat :=
  let d := lowercaseHex n
  if d.length < 2 then 48 :: d else d

/-- Numeric value of one hexadecimal digit byte. -/
def hexVal (b : Nat) : Nat :=
  if b < 58 then b - 48 else b - 87

/-- Numeric value of a big-endian string of hexadecimal digit bytes. -/
def decodeHex (l : List Nat) : Nat :=
  l.foldl (fun acc b => 16 * acc + hexVal b) 0

/-- Translation of `ws_text` (main.rs lines 22-26): a
WebSocket-over-HTTP TEXT frame,
`format!("TEXT {:02x}\r\n{}\r\n", msg.len(), msg)` on bytes.  The length
field counts raw bytes of the payload. -/
def ws_text (msg : List Nat) : List Nat :=
  bytes "TEXT " ++ hex02 msg.length ++ bytes "\r\n" ++ msg ++ bytes "\r\n"

/-- Translation of `ws_sub` (main.rs lines 29-31): a channel-subscription
command frame,
`ws_text(format!("c:\x7b\"type\":\"subscribe\",\"channel\":\"{}\"\x7d", ch))`. -/
def ws_sub (ch : String) : List Nat :=
  ws_text (bytes ("c:\x7b\"type\":\"subscribe\",\"channel\":\"" ++ ch ++ "\"\x7d"))

/-- Payload of the keep-alive command frame emitted by `handle_test_ws`
(main.rs lines 49-51). -/
def keepAlivePayload : List Nat :=
  bytes "c:\x7b\"type\":\"keep-alive\",\"message-type\":\"ping\",\"content\":\"\",\"timeout\":20\x7d"

/-- Bytes of the `OPEN` control line. -/
def openLine : List Nat := bytes "OPEN\r\n"

/-- Bytes of the `CLOSE` token scanned for in request bodies. -/
def closeToken : List Nat := bytes "CLOSE"

/-- Contiguous-substring scan: true when `pat` occurs as a window of
consecutive bytes of the list, as Rust's
`body.windows(pat.len()).any(w == pat)` computes for nonempty `pat`. -/
def hasInfix (pat : List Nat) : List Nat → Bool
  | [] => pat.isPrefixOf ([] : List Nat)
  | b :: rest => pat.isPrefixOf (b :: rest) || hasInfix pat rest

/-- Translation of `grip_response` (main.rs lines 13-19): status 200 with
Content-Type, Grip-Hold and Grip-Channel headers and an empty body. -/
def grip_response (ctype ghold chan : String) : Response :=
  { status := 200
    headers := [("Content-Type", ctype), ("Grip-Hold", ghold), ("Grip-Channel", chan)]
    body := bytes "" }

/-- Translation of `handle_test_ws` (main.rs lines 33-61).  The Rust
`req_body.windows(5).any(w == CLOSE)` substring scan is a contiguous
sublist (infix) test, embedded as `List.isInfixOf`. -/
def handle_test_ws (req : Request) (chan : String) : Response :=
  if req.header "Content-Type" ≠ some "application/websocket-events" then
    { status := 400, headers := [], body := bytes "Not a WebSocket-over-HTTP request.\n" }
  else
    let req_body := req.body
    let opened := openLine.isPrefixOf req_body
    let closed := hasInfix closeToken req_body
    { status := 200
      headers :=
        (if opened then [("Sec-WebSocket-Extensions", "grip; message-prefix=\"\"")] else [])
          ++ [("Content-Type", "application/websocket-events")]
      body :=
        (if opened then openLine ++ ws_sub chan ++ ws_text keepAlivePayload else [])
          ++ (if closed then bytes "CLOSE\r\n" else []) }

/-- Translation of `handle_test` (main.rs lines 63-80): matches the path
against the three test sub-routes. -/
def handle_test (req : Request) (chan : String) : Response :=
  if req.path == "/test" || req.path == "/test/" then
    { status := 200, headers := [], body := bytes "Hello from the Fanout test handler!\n" }
  else if req.path == "/test/sse" then
    ((grip_response "text/event-stream" "stream" chan).withHeader
        "Grip-Keep-Alive" ":\\n\\n; format=cstring; timeout=20").withBody
      (bytes ":" ++ List.replicate 2048 32 ++ bytes "\n\n")
  else if req.path == "/test/ws" then
    handle_test_ws req chan
  else
    { status := 404, headers := [], body := bytes "\x7b\"error\": \"not found\"\x7d\n" }

/-- Names of the fixed static-asset table of `handle_static`
(main.rs lines 97-115). -/
def staticNames : List String :=
  ["eventsource.min.js",
   "faye-browser-1.1.2-fanout1-min.js",
   "faye-browser-1.1.2-fanout1-min.js.map",
   "faye-browser-1.1.2-fanout1.js",
   "faye-browser-min.js",
   "faye-browser-min.js.map",
   "faye-browser.js",
   "json2.js",
   "reconnecting-eventsource.js"]

/-- Byte-level test used for Rust's `str::starts_with`. -/
def startsWithS (s p : String) : Bool :=
  p.data.isPrefixOf s.data

/-- Byte-level test used for Rust's `str::ends_with`. -/
def endsWithS (s p : String) : Bool :=
  p.data.isSuffixOf s.data

/-- Content type derived from the filename suffix in `handle_static`
(main.rs lines 122-128). -/
def ctypeFor (fname : String) : String :=
  if endsWithS fname ".js" then "application/javascript"
  else if endsWithS fname ".map" then "application/octet-stream"
  else "text/plain"

/-- Splitting a character list on a separator; mirrors splitting of a URL
path on the slash.  The result is never empty and the empty list splits
to one empty segment, as `"".split` does. -/
def splitOnChar (c : Char) (l : List Char) : List (List Char) :=
  l.foldr
    (fun ch acc =>
      if ch == c then [] :: acc
      else
        match acc with
        | [] => [[ch]]
        | a :: as => (ch :: a) :: as)
    [[]]

/-- Embedding of `Url::path_segments`: for an HTTP URL the path starts
with a slash and the segments are the slash-separated pieces after it;
`none` models the cannot-be-a-base case in which Rust returns `None`. -/
def pathSegments (p : String) : Option (List String) :=
  if startsWithS p "/" then
    some ((splitOnChar '/' (p.data.drop 1)).map String.mk)
  else
    none

/-- Translation of `handle_static` (main.rs lines 94-133).  The bytes of
the asset files are external to the source (they are included from a
static directory at build time), so the table's values are abstracted as
the function `content`; a `none` result marks a panicking `unwrap`. -/
def handle_static (content : String → List Nat) (req : Request) : Option Response :=
  match pathSegments req.path with
  | none => none
  | some segs =>
    match segs.getLast? with
    | none => none
    | some fname =>
      if staticNames.contains fname then
        some { status := 200
               headers := [("Content-Type", ctypeFor fname)]
               body := content fname }
      else
        some { status := 404, headers := [], body := [] }

/-- Translation of `is_tls` (main.rs lines 135-137). -/
def is_tls (req : Request) : Bool :=
  eqIgnoreAsciiCase req.scheme "https"

/-- Synthesized backend identifier of the fall-through handoff
(main.rs lines 196-204). -/
def synthBackend (tls : Bool) (host : String) : String :=
  (if tls then "https_backend_" else "http_backend_") ++ host

/-- Routing decision of `main`: answer 404 for a missing host, serve a
static asset, run the builtin test handler, or hand the request off to a
named destination. -/
inductive RouteDecision where
  | unknownHost : RouteDecision
  | staticAsset : RouteDecision
  | builtinTest : RouteDecision
  | handoff : String → RouteDecision
deriving DecidableEq

/-- Translation of the routing logic of `main` (main.rs lines 139-213):
host check, managed-domain suffix check, static mount points, test
route gated on the Grip-Sig trust header, bayeux route, and the
fall-through handoff to the scheme-prefixed backend. -/
def route (req : Request) : RouteDecision :=
  match req.host with
  | none => .unknownHost
  | some host =>
    if endsWithS host ".fanoutcdn.com" then
      if startsWithS req.path "/test/static/" || startsWithS req.path "/bayeux/static/" then
        .staticAsset
      else if req.path == "/test" || startsWithS req.path "/test/" then
        if (req.header "Grip-Sig").isSome then .builtinTest
        else .handoff ("self_" ++ host)
      else if req.path == "/bayeux" || startsWithS req.path "/bayeux/" then
        .handoff "bayeux-handler"
      else
        .handoff (synthBackend (is_tls req) host)
    else
      .handoff (synthBackend (is_tls req) host)

/-- Definition of the routing decision as a function of exactly the four
inputs host, path, trust-header presence and scheme; used to state that
`route` depends on nothing else. -/
def routeCore (host : Option String) (path : String) (trusted : Bool) (scheme : String) :
    RouteDecision :=
  match host with
  | none => .unknownHost
  | some h =>
    if endsWithS h ".fanoutcdn.com" then
      if startsWithS path "/test/static/" || startsWithS path "/bayeux/static/" then
        .staticAsset
      else if path == "/test" || startsWithS path "/test/" then
        if trusted then .builtinTest
        else .handoff ("self_" ++ h)
      else if path == "/bayeux" || startsWithS path "/bayeux/" then
        .handoff "bayeux-handler"
      else
        .handoff (synthBackend (eqIgnoreAsciiCase scheme "https") h)
    else
      .handoff (synthBackend (eqIgnoreAsciiCase scheme "https") h)

/-! Lemmas about the hexadecimal length field. -/

lemma hexRepAux_zero (f : Nat) : hexRepAux f 0 = [] := by
  cases f <;> rfl

lemma div16_le (m : Nat) : (m + 1) / 16 ≤ m :=
  Nat.le_of_lt_succ (Nat.div_lt_self (Nat.succ_pos m) (by decide))

lemma decodeHex_append (l : List Nat) (d : Nat) :
    decodeHex (l ++ [d]) = 16 * decodeHex l + hexVal d := by
  unfold decodeHex
  rw [List.foldl_append]
  rfl

lemma hexVal_hexDigit (m : Nat) (h : m < 16) : hexVal (hexDigit m) = m := by
  rcases Nat.lt_or_ge m 10 with h10 | h10
  · simp only [hexDigit, if_pos h10, hexVal]
    rw [if_pos (by omega : (48 + m) < 58)]
    omega
  · simp only [hexDigit, if_neg (by omega : ¬ m < 10), hexVal]
    rw [if_neg (by omega : ¬ (87 + m) < 58)]
    omega

lemma decodeHex_hexRepAux : ∀ f n, n ≤ f → decodeHex (hexRepAux f n) = n := by
  intro f
  induction f with
  | zero =>
    intro n hn
    have h0 : n = 0 := Nat.le_zero.mp hn
    subst h0
    rfl
  | succ f ih =>
    intro n hn
    cases n with
    | zero => rfl
    | succ m =>
      show decodeHex (hexRepAux f ((m + 1) / 16) ++ [hexDigit ((m + 1) % 16)]) = m + 1
      rw [decodeHex_append,
        ih _ (le_trans (div16_le m) (Nat.lt_succ_iff.mp hn)),
        hexVal_hexDigit _ (Nat.mod_lt _ (by decide))]
      exact Nat.div_add_mod (m + 1) 16

lemma decodeHex_hexRep (n : Nat) : decodeHex (hexRep n) = n :=
  decodeHex_hexRepAux n n (Nat.le_refl n)

lemma decodeHex_lowercaseHex (n : Nat) : decodeHex (lowercaseHex n) = n := by
  unfold lowercaseHex
  by_cases h : n = 0
  · rw [if_pos h, h]
    rfl
  · rw [if_neg h]
    exact decodeHex_hexRep n

lemma decodeHex_hex02 (n : Nat) : decodeHex (hex02 n) = n := by
  simp only [hex02]
  by_cases h : (lowercaseHex n).length < 2
  · rw [if_pos h]
    calc decodeHex (48 :: lowercaseHex n) = decodeHex (lowercaseHex n) := rfl
      _ = n := decodeHex_lowercaseHex n
  · rw [if_neg h]
    exact decodeHex_lowercaseHex n

lemma hexDigit_range (m : Nat) (h : m < 16) :
    (48 ≤ hexDigit m ∧ hexDigit m ≤ 57) ∨ (97 ≤ hexDigit m ∧ hexDigit m ≤ 102) := by
  unfold hexDigit
  by_cases h10 : m < 10
  · left
    rw [if_pos h10]
    omega
  · right
    rw [if_neg h10]
    omega

lemma hexRepAux_range :
    ∀ f n b, b ∈ hexRepAux f n → (48 ≤ b ∧ b ≤ 57) ∨ (97 ≤ b ∧ b ≤ 102) := by
  intro f
  induction f with
  | zero =>
    intro n b hb
    cases n with
    | zero => simp [hexRepAux] at hb
    | succ m => simp [hexRepAux] at hb
  | succ f ih =>
    intro n b hb
    cases n with
    | zero => simp [hexRepAux] at hb
    | succ m =>
      rw [show hexRepAux (f + 1) (m + 1)
          = hexRepAux f ((m + 1) / 16) ++ [hexDigit ((m + 1) % 16)] from rfl] at hb
      rcases List.mem_append.mp hb with h | h
      · exact ih _ _ h
      · rw [List.mem_singleton.mp h]
        exact hexDigit_range _ (Nat.mod_lt _ (by decide))

lemma lowercaseHex_range (n b : Nat) (hb : b ∈ lowercaseHex n) :
    (48 ≤ b ∧ b ≤ 57) ∨ (97 ≤ b ∧ b ≤ 102) := by
  unfold lowercaseHex at hb
  by_cases h : n = 0
  · rw [if_pos h] at hb
    rw [List.mem_singleton.mp hb]
    left
    omega
  · rw [if_neg h] at hb
    exact hexRepAux_range n n b hb

lemma hex02_range (n b : Nat) (hb : b ∈ hex02 n) :
    (48 ≤ b ∧ b ≤ 57) ∨ (97 ≤ b ∧ b ≤ 102) := by
  simp only [hex02] at hb
  by_cases h : (lowercaseHex n).length < 2
  · rw [if_pos h] at hb
    rcases List.mem_cons.mp hb with h48 | hmem
    · left
      omega
    · exact lowercaseHex_range n b hmem
  · rw [if_neg h] at hb
    exact lowercaseHex_range n b hb

lemma hexRepAux_ne_nil (f n : Nat) (h1 : 0 < n) (h2 : n ≤ f) : hexRepAux f n ≠ [] := by
  cases n with
  | zero => omega
  | succ m =>
    cases f with
    | zero => omega
    | succ g =>
      show hexRepAux g ((m + 1) / 16) ++ [hexDigit ((m + 1) % 16)] ≠ []
      simp

lemma lowercaseHex_of_lt (n : Nat) (h : n < 16) : lowercaseHex n = [hexDigit n] := by
  unfold lowercaseHex
  by_cases h0 : n = 0
  · rw [if_pos h0, h0]
    rfl
  · rw [if_neg h0]
    obtain ⟨m, rfl⟩ := Nat.exists_eq_succ_of_ne_zero h0
    show hexRepAux m ((m + 1) / 16) ++ [hexDigit ((m + 1) % 16)] = _
    rw [Nat.div_eq_of_lt h, hexRepAux_zero, Nat.mod_eq_of_lt h]
    rfl

lemma lowercaseHex_len2 (n : Nat) (h : 16 ≤ n) : 2 ≤ (lowercaseHex n).length := by
  obtain ⟨m, rfl⟩ := Nat.exists_eq_succ_of_ne_zero (by omega : n ≠ 0)
  unfold lowercaseHex
  rw [if_neg (by omega)]
  show 2 ≤ (hexRepAux m ((m + 1) / 16) ++ [hexDigit ((m + 1) % 16)]).length
  rw [List.length_append, List.length_singleton]
  have hpos : 0 < (m + 1) / 16 := Nat.div_pos h (by decide)
  have hne := hexRepAux_ne_nil m ((m + 1) / 16) hpos (div16_le m)
  have := List.length_pos.mpr hne
  omega

lemma hex02_of_lt (n : Nat) (h : n < 16) : hex02 n = 48 :: lowercaseHex n := by
  simp only [hex02]
  rw [lowercaseHex_of_lt n h]
  rfl

lemma hex02_of_ge (n : Nat) (h : 16 ≤ n) : hex02 n = lowercaseHex n := by
  simp only [hex02]
  rw [if_neg]
  have := lowercaseHex_len2 n h
  omega

/-- Claim C2 counterexample: the subscribe frame for channel `"test"`
does not carry the length marker `28`; its payload
`c:\x7b"type":"subscribe","channel":"test"\x7d` is 39 bytes long, which is
hexadecimal 27, not 28. -/
theorem claim_C2_counterexample :
    ws_sub "test" ≠
      bytes "TEXT 28\r\nc:\x7b\"type\":\"subscribe\",\"channel\":\"test\"\x7d\r\n" := by
  decide

/-- Claim C2 (amended): `ws_sub "test"` equals exactly the byte string
`TEXT 27\r\nc:\x7b"type":"subscribe","channel":"test"\x7d\r\n`, where 27 is
the lowercase-hex byte count (39) of the payload, the JSON command object
prefixed with `c:`. -/
theorem claim_C2_amended :
    ws_sub "test" =
        bytes "TEXT 27\r\nc:\x7b\"type\":\"subscribe\",\"channel\":\"test\"\x7d\r\n"
    ∧ decodeHex (bytes "27") =
        (bytes ("c:\x7b\"type\":\"subscribe\",\"channel\":\"" ++ "test" ++ "\"\x7d")).length := by
  exact ⟨by decide, by decide⟩

/-- Claim C3 counterexample: at the empty payload the encoder emits
`TEXT 00\r\n\r\n` (Rust's `\x7b:02x\x7d` format zero-pads to two digits), not
the unpadded `TEXT 0\r\n\r\n` that the claim's no-leading-zeros hex would
give. -/
theorem claim_C3_counterexample :
    ws_text [] ≠
      bytes "TEXT " ++ lowercaseHex 0 ++ bytes "\r\n" ++ ([] : List Nat) ++ bytes "\r\n" := by
  decide

/-- Claim C3 (amended): for every payload byte string P, the TEXT frame is
`TEXT ` ++ hex(len P) ++ CRLF ++ P ++ CRLF where the hex field decodes to
exactly the byte length of P, uses only lowercase hexadecimal digit bytes,
and is zero-padded to a minimum width of two digits: for lengths of 16 and
above it is the minimal representation with no padding, while for lengths
below 16 a single leading zero is added. -/
theorem claim_C3_amended (P : List Nat) :
    ws_text P = bytes "TEXT " ++ hex02 P.length ++ bytes "\r\n" ++ P ++ bytes "\r\n"
  ∧ decodeHex (hex02 P.length) = P.length
  ∧ (∀ b ∈ hex02 P.length, (48 ≤ b ∧ b ≤ 57) ∨ (97 ≤ b ∧ b ≤ 102))
  ∧ (16 ≤ P.length → hex02 P.length = lowercaseHex P.length)
  ∧ (P.length < 16 → hex02 P.length = 48 :: lowercaseHex P.length) :=
  ⟨rfl, decodeHex_hex02 _, fun b hb => hex02_range _ b hb,
    fun h => hex02_of_ge _ h, fun h => hex02_of_lt _ h⟩

/-- Claim C3 witness: the amended statement applied to a concrete 20-byte
payload, whose length field is the unpadded two-digit hex 14. -/
theorem claim_C3_witness :
    16 ≤ (List.replicate 20 (0 : Nat)).length
    ∧ hex02 (List.replicate 20 (0 : Nat)).length
        = lowercaseHex (List.replicate 20 (0 : Nat)).length :=
  ⟨by decide, (claim_C3_amended (List.replicate 20 (0 : Nat))).2.2.2.1 (by decide)⟩

/-- Claim C1: on the WebSocket-framing test sub-route with the expected
protocol content-type, a body starting with `OPEN\r\n` makes the response
body begin with `OPEN\r\n` followed by exactly one subscribe frame for
channel `"test"` and one keep-alive frame with timeout 20, independent of
trailing content; a body containing the byte substring `CLOSE` anywhere
makes the response body end with a `CLOSE\r\n` line; and both
augmentations apply together when both conditions hold. -/
theorem claim_C1 (req : Request)
    (hct : req.header "Content-Type" = some "application/websocket-events") :
    (openLine.isPrefixOf req.body = true →
      ∃ tail, (handle_test_ws req "test").body
        = openLine ++ ws_sub "test" ++ ws_text keepAlivePayload ++ tail)
  ∧ (hasInfix closeToken req.body = true →
      ∃ front, (handle_test_ws req "test").body = front ++ bytes "CLOSE\r\n")
  ∧ (openLine.isPrefixOf req.body = true → hasInfix closeToken req.body = true →
      (handle_test_ws req "test").body
        = openLine ++ ws_sub "test" ++ ws_text keepAlivePayload ++ bytes "CLOSE\r\n") := by
  have hne : ¬ (req.header "Content-Type" ≠ some "application/websocket-events") := by
    simp [hct]
  have hbody : (handle_test_ws req "test").body
      = (if openLine.isPrefixOf req.body then
          openLine ++ ws_sub "test" ++ ws_text keepAlivePayload else [])
        ++ (if hasInfix closeToken req.body then bytes "CLOSE\r\n" else []) := by
    unfold handle_test_ws
    rw [if_neg hne]
  refine ⟨?_, ?_, ?_⟩
  · intro hopen
    rw [hbody, if_pos hopen]
    exact ⟨_, rfl⟩
  · intro hclose
    rw [hbody, if_pos hclose]
    exact ⟨_, rfl⟩
  · intro hopen hclose
    rw [hbody, if_pos hopen, if_pos hclose]

/-- Request used to instantiate claim C1: correct content-type, body both
starting with OPEN and containing a CLOSE token mid-payload. -/
def wsOpenCloseReq : Request :=
  { method := "POST", scheme := "https", host := some "demo.fanoutcdn.com",
    path := "/test/ws", headers := [("Content-Type", "application/websocket-events")],
    body := bytes "OPEN\r\nxxCLOSEyy" }

/-- Claim C1 witness: both augmentations at a concrete request. -/
theorem claim_C1_witness :
    (wsOpenCloseReq.header "Content-Type" = some "application/websocket-events")
  ∧ (handle_test_ws wsOpenCloseReq "test").body
      = openLine ++ ws_sub "test" ++ ws_text keepAlivePayload ++ bytes "CLOSE\r\n" :=
  ⟨by decide, (claim_C1 wsOpenCloseReq (by decide)).2.2 (by decide) (by decide)⟩

/-- Claim C6: on the WebSocket-framing test sub-route, any request whose
Content-Type header is not exactly `application/websocket-events`
(including an absent header) gets status 400 with body
`Not a WebSocket-over-HTTP request.\n`, regardless of the request body. -/
theorem claim_C6 (req : Request) (chan : String)
    (h : req.header "Content-Type" ≠ some "application/websocket-events") :
    (handle_test_ws req chan).status = 400
    ∧ (handle_test_ws req chan).body = bytes "Not a WebSocket-over-HTTP request.\n" := by
  unfold handle_test_ws
  rw [if_pos h]
  exact ⟨rfl, rfl⟩

/-- Request used to instantiate claim C6: wrong content-type with an
otherwise well-formed WebSocket-over-HTTP body. -/
def wsBadCtypeReq : Request :=
  { method := "POST", scheme := "https", host := some "demo.fanoutcdn.com",
    path := "/test/ws", headers := [("Content-Type", "text/plain")],
    body := bytes "OPEN\r\n" }

/-- Claim C6 witness at a concrete request. -/
theorem claim_C6_witness :
    (wsBadCtypeReq.header "Content-Type" ≠ some "application/websocket-events")
  ∧ ((handle_test_ws wsBadCtypeReq "test").status = 400
    ∧ (handle_test_ws wsBadCtypeReq "test").body
        = bytes "Not a WebSocket-over-HTTP request.\n") :=
  ⟨by decide, claim_C6 wsBadCtypeReq "test" (by decide)⟩

/-- Claim C8: a request whose path is the test root (`/test` or `/test/`)
is answered by the test handler with status 200 and body
`Hello from the Fanout test handler!\n`, for every combination of method,
scheme, host, headers and body. -/
theorem claim_C8 (req : Request) (chan : String)
    (h : req.path = "/test" ∨ req.path = "/test/") :
    handle_test req chan =
      { status := 200, headers := [],
        body := bytes "Hello from the Fanout test handler!\n" } := by
  unfold handle_test
  rcases h with h | h <;> rw [h] <;> rfl

/-- Request used to instantiate claim C8, carrying unrelated headers. -/
def helloReq : Request :=
  { method := "GET", scheme := "https", host := some "demo.fanoutcdn.com",
    path := "/test", headers := [("Grip-Sig", "sig"), ("X-Whatever", "1")],
    body := [] }

/-- Claim C8 witness at a concrete request. -/
theorem claim_C8_witness :
    (helloReq.path = "/test" ∨ helloReq.path = "/test/")
  ∧ handle_test helloReq "test" =
      { status := 200, headers := [],
        body := bytes "Hello from the Fanout test handler!\n" } :=
  ⟨Or.inl rfl, claim_C8 helloReq "test" (Or.inl rfl)⟩

/-- Claim C4: a request dispatched to the test handler with path
`/test/sse` is answered with status 200, Content-Type
`text/event-stream`, Grip-Hold `stream`, a Grip-Channel header bound to
the channel, a Grip-Keep-Alive header carrying the ping bytes and a
20-second timeout, and a body that is a comment line of a colon followed
by 2048 padding spaces and then a blank line. -/
theorem claim_C4 (req : Request) (chan : String) (h : req.path = "/test/sse") :
    (handle_test req chan).status = 200
  ∧ (handle_test req chan).header "Content-Type" = some "text/event-stream"
  ∧ (handle_test req chan).header "Grip-Hold" = some "stream"
  ∧ (handle_test req chan).header "Grip-Channel" = some chan
  ∧ (handle_test req chan).header "Grip-Keep-Alive"
      = some ":\\n\\n; format=cstring; timeout=20"
  ∧ (handle_test req chan).body = bytes ":" ++ List.replicate 2048 32 ++ bytes "\n\n" := by
  unfold handle_test
  rw [h]
  exact ⟨rfl, rfl, rfl, rfl, rfl, rfl⟩

/-- Request used to instantiate claim C4. -/
def sseReq : Request :=
  { method := "GET", scheme := "https", host := some "demo.fanoutcdn.com",
    path := "/test/sse", headers := [("Grip-Sig", "sig")], body := [] }

/-- Claim C4 witness at a concrete request. -/
theorem claim_C4_witness :
    (handle_test sseReq "test").status = 200
  ∧ (handle_test sseReq "test").header "Content-Type" = some "text/event-stream"
  ∧ (handle_test sseReq "test").header "Grip-Hold" = some "stream"
  ∧ (handle_test sseReq "test").header "Grip-Channel" = some "test"
  ∧ (handle_test sseReq "test").header "Grip-Keep-Alive"
      = some ":\\n\\n; format=cstring; timeout=20"
  ∧ (handle_test sseReq "test").body = bytes ":" ++ List.replicate 2048 32 ++ bytes "\n\n" :=
  claim_C4 sseReq "test" rfl

/-! Lemmas and claims about the routing dispatcher. -/

lemma route_eq_core (req : Request) :
    route req = routeCore req.host req.path ((req.header "Grip-Sig").isSome) req.scheme := by
  obtain ⟨m, s, ho, p, hs, b⟩ := req
  cases ho <;> rfl

lemma routeCore_some (host path : String) (trusted : Bool) (scheme : String) :
    routeCore (some host) path trusted scheme =
      (if endsWithS host ".fanoutcdn.com" then
        if startsWithS path "/test/static/" || startsWithS path "/bayeux/static/" then
          .staticAsset
        else if path == "/test" || startsWithS path "/test/" then
          if trusted then .builtinTest else .handoff ("self_" ++ host)
        else if path == "/bayeux" || startsWithS path "/bayeux/" then
          .handoff "bayeux-handler"
        else .handoff (synthBackend (eqIgnoreAsciiCase scheme "https") host)
      else .handoff (synthBackend (eqIgnoreAsciiCase scheme "https") host)) := rfl

lemma route_synth (req : Request) (host : String) (hh : req.host = some host)
    (hend : endsWithS host ".fanoutcdn.com" = false) :
    route req = .handoff (synthBackend (is_tls req) host) := by
  rw [route_eq_core req, hh, routeCore_some]
  rw [hend]
  rfl

lemma route_handoff_cases (req : Request) (host d : String) (hh : req.host = some host)
    (hr : route req = .handoff d) :
    d = "self_" ++ host ∨ d = "bayeux-handler" ∨ d = synthBackend (is_tls req) host := by
  rw [route_eq_core req, hh, routeCore_some] at hr
  split at hr
  · split at hr
    · exact RouteDecision.noConfusion hr
    · split at hr
      · split at hr
        · exact RouteDecision.noConfusion hr
        · left
          injection hr with h
          exact h.symm
      · split at hr
        · right
          left
          injection hr with h
          exact h.symm
        · right
          right
          injection hr with h
          exact h.symm
  · right
    right
    injection hr with h
    exact h.symm

/-- Claim C5: the routing decision is a pure function of host, path,
trust-header presence and scheme; the synthesized backend identifier of
the fall-through branch is the scheme prefix concatenated with the host;
and no handoff destination contains a slash (a path component) unless the
host itself does. -/
theorem claim_C5 :
    (∀ r1 r2 : Request, r1.host = r2.host → r1.path = r2.path →
        (r1.header "Grip-Sig").isSome = (r2.header "Grip-Sig").isSome →
        r1.scheme = r2.scheme → route r1 = route r2)
  ∧ (∀ req : Request, ∀ host : String, req.host = some host →
        endsWithS host ".fanoutcdn.com" = false →
        route req
          = .handoff ((if is_tls req then "https_backend_" else "http_backend_") ++ host))
  ∧ (∀ req : Request, ∀ host d : String, req.host = some host →
        route req = .handoff d → '/' ∈ d.data → '/' ∈ host.data) := by
  refine ⟨?_, ?_, ?_⟩
  · intro r1 r2 h1 h2 h3 h4
    rw [route_eq_core r1, route_eq_core r2, h1, h2, h3, h4]
  · intro req host hh hend
    exact route_synth req host hh hend
  · intro req host d hh hr hmem
    rcases route_handoff_cases req host d hh hr with h | h | h
    · subst h
      rw [String.data_append] at hmem
      rcases List.mem_append.mp hmem with h | h
      · exact absurd h (by decide)
      · exact h
    · subst h
      exact absurd hmem (by decide)
    · subst h
      unfold synthBackend at hmem
      rw [String.data_append] at hmem
      rcases List.mem_append.mp hmem with h | h
      · by_cases htls : is_tls req = true
        · rw [if_pos htls] at h
          exact absurd h (by decide)
        · rw [if_neg htls] at h
          exact absurd h (by decide)
      · exact h

/-- Requests used to instantiate claim C5: same host, path,
trust-header-presence and scheme, different method, headers and body. -/
def routeReqA : Request :=
  { method := "GET", scheme := "https", host := some "a.fanoutcdn.com",
    path := "/other", headers := [("X-Other", "1")], body := [1, 2, 3] }

/-- Second request for the claim C5 witness. -/
def routeReqB : Request :=
  { method := "POST", scheme := "https", host := some "a.fanoutcdn.com",
    path := "/other", headers := [], body := [] }

/-- Claim C5 witness: two concrete requests agreeing on the four routing
inputs route identically. -/
theorem claim_C5_witness : route routeReqA = route routeReqB :=
  claim_C5.1 routeReqA routeReqB rfl rfl rfl rfl

/-- Claim C9: a host that is exactly `fanoutcdn.com`, or any host not
ending in `.fanoutcdn.com`, never reaches the static, test or bayeux
branches: the request is handed off to the scheme-prefixed synthesized
backend identifier, whatever the path. -/
theorem claim_C9 (req : Request) (host : String) (h1 : req.host = some host)
    (h2 : host = "fanoutcdn.com" ∨ endsWithS host ".fanoutcdn.com" = false) :
    route req
      = .handoff ((if is_tls req then "https_backend_" else "http_backend_") ++ host) := by
  have hend : endsWithS host ".fanoutcdn.com" = false := by
    rcases h2 with h | h
    · rw [h]
      decide
    · exact h
  exact route_synth req host h1 hend

/-- Request used to instantiate claim C9: the apex domain itself with the
test path. -/
def fanoutApexReq : Request :=
  { method := "GET", scheme := "https", host := some "fanoutcdn.com",
    path := "/test", headers := [("Grip-Sig", "sig")], body := [] }

/-- Claim C9 witness: a request for host `fanoutcdn.com` and path `/test`
is handed off to the synthesized backend, not the test branch. -/
theorem claim_C9_witness :
    route fanoutApexReq
      = .handoff ((if is_tls fanoutApexReq then "https_backend_" else "http_backend_")
          ++ "fanoutcdn.com") :=
  claim_C9 fanoutApexReq "fanoutcdn.com" rfl (Or.inl rfl)

/-! Lemmas and claims about the static-asset handler. -/

lemma splitOnChar_cons (c ch : Char) (l : List Char) :
    splitOnChar c (ch :: l) =
      if ch == c then [] :: splitOnChar c l
      else
        match splitOnChar c l with
        | [] => [[ch]]
        | a :: as => (ch :: a) :: as := rfl

lemma splitOnChar_ne_nil (c : Char) (l : List Char) : splitOnChar c l ≠ [] := by
  induction l with
  | nil => simp [splitOnChar]
  | cons ch l ih =>
    rw [splitOnChar_cons]
    by_cases h : ch == c
    · rw [if_pos h]
      simp
    · rw [if_neg h]
      rcases hsp : splitOnChar c l with _ | ⟨a, as⟩
      · exact absurd hsp ih
      · simp

lemma splitOnChar_append_sep (c : Char) (lp : List Char) :
    splitOnChar c (lp ++ [c]) = splitOnChar c lp ++ [[]] := by
  induction lp with
  | nil =>
    rw [List.nil_append, splitOnChar_cons, if_pos (beq_self_eq_true c)]
    rfl
  | cons ch lp ih =>
    rw [List.cons_append, splitOnChar_cons, splitOnChar_cons]
    by_cases h : ch == c
    · rw [if_pos h, if_pos h, ih]
      rfl
    · rw [if_neg h, if_neg h]
      rcases hsp : splitOnChar c lp with _ | ⟨a, as⟩
      · exact absurd hsp (splitOnChar_ne_nil c lp)
      · rw [ih, hsp]
        rfl

lemma handle_static_eval (content : String → List Nat) (req : Request)
    (segs : List String) (fname : String)
    (h1 : pathSegments req.path = some segs) (h2 : segs.getLast? = some fname) :
    handle_static content req =
      some (if staticNames.contains fname then
          { status := 200, headers := [("Content-Type", ctypeFor fname)],
            body := content fname }
        else { status := 404, headers := [], body := [] }) := by
  unfold handle_static
  simp only [h1, h2]
  by_cases hc : staticNames.contains fname
  · rw [if_pos hc, if_pos hc]
  · rw [if_neg hc, if_neg hc]

/-- Request used to refute claim C7: a non-GET request to a known static
asset. -/
def postStaticReq : Request :=
  { method := "POST", scheme := "https", host := some "demo.fanoutcdn.com",
    path := "/test/static/json2.js", headers := [], body := [] }

/-- Claim C7 counterexample: the static handler never inspects the
request method, so a POST request for a known asset name is served with
status 200 rather than being rejected; the route is not GET-only. -/
theorem claim_C7_counterexample :
    postStaticReq.method = "POST"
  ∧ handle_static (fun _ => []) postStaticReq
      = some { status := 200, headers := [("Content-Type", "application/javascript")],
               body := [] } :=
  ⟨rfl, by decide⟩

/-- Claim C7 (amended): the static-asset handler ignores the request
method entirely; the path's final segment is looked up verbatim in the
fixed name table, a hit returns status 200 with Content-Type derived from
the filename suffix (`.js` gives the script type, `.map` gives the
generic binary type, anything else gives text/plain), and an unknown name
returns 404 with an empty body. -/
theorem claim_C7_amended :
    (∀ content : String → List Nat, ∀ req : Request, ∀ m : String,
        handle_static content { req with method := m } = handle_static content req)
  ∧ (∀ content : String → List Nat, ∀ req : Request, ∀ segs : List String, ∀ fname : String,
        pathSegments req.path = some segs → segs.getLast? = some fname →
        handle_static content req =
          some (if staticNames.contains fname then
              { status := 200, headers := [("Content-Type", ctypeFor fname)],
                body := content fname }
            else { status := 404, headers := [], body := [] }))
  ∧ (∀ fname, endsWithS fname ".js" = true → ctypeFor fname = "application/javascript")
  ∧ (∀ fname, endsWithS fname ".js" = false → endsWithS fname ".map" = true →
        ctypeFor fname = "application/octet-stream")
  ∧ (∀ fname, endsWithS fname ".js" = false → endsWithS fname ".map" = false →
        ctypeFor fname = "text/plain") := by
  refine ⟨?_, ?_, ?_, ?_, ?_⟩
  · intro content req m
    rfl
  · intro content req segs fname h1 h2
    exact handle_static_eval content req segs fname h1 h2
  · intro fname h
    unfold ctypeFor
    rw [if_pos h]
  · intro fname h1 h2
    unfold ctypeFor
    rw [if_neg (by simp [h1]), if_pos h2]
  · intro fname h1 h2
    unfold ctypeFor
    rw [if_neg (by simp [h1]), if_neg (by simp [h2])]

/-- Request used to instantiate the amended claim C7. -/
def staticHitReq : Request :=
  { method := "GET", scheme := "https", host := some "demo.fanoutcdn.com",
    path := "/test/static/json2.js", headers := [], body := [] }

/-- Claim C7 witness: the lookup of a concrete known asset name. -/
theorem claim_C7_witness :
    handle_static (fun _ => [7]) staticHitReq =
      some (if staticNames.contains "json2.js" then
          { status := 200, headers := [("Content-Type", ctypeFor "json2.js")],
            body := [7] }
        else { status := 404, headers := [], body := [] }) :=
  claim_C7_amended.2.1 (fun _ => [7]) staticHitReq ["test", "static", "json2.js"] "json2.js"
    (by decide) (by decide)

/-- Claim C10: whenever the dispatcher's precondition holds (the path
starts with `/test/static/` or `/bayeux/static/`), the last-segment
extraction of the static handler cannot fail (both `unwrap`s succeed),
and a path ending in a slash yields the empty filename, absent from the
asset table, so the handler answers 404 with an empty body rather than
failing. -/
theorem claim_C10 (req : Request)
    (h : startsWithS req.path "/test/static/" = true ∨
         startsWithS req.path "/bayeux/static/" = true) :
    (∃ segs, pathSegments req.path = some segs ∧ ∃ fname, segs.getLast? = some fname)
  ∧ (endsWithS req.path "/" = true →
      ∀ content, handle_static content req
        = some { status := 404, headers := [], body := [] }) := by
  have hcons : ∃ u, req.path.data = '/' :: u ∧ u ≠ [] := by
    rcases h with hp | hp
    · obtain ⟨rest, hrest⟩ := List.isPrefixOf_iff_prefix.mp hp
      refine ⟨"test/static/".data ++ rest, by rw [← hrest]; rfl, fun habs => ?_⟩
      exact absurd (List.append_eq_nil.mp habs).1 (by decide)
    · obtain ⟨rest, hrest⟩ := List.isPrefixOf_iff_prefix.mp hp
      refine ⟨"bayeux/static/".data ++ rest, by rw [← hrest]; rfl, fun habs => ?_⟩
      exact absurd (List.append_eq_nil.mp habs).1 (by decide)
  obtain ⟨u, hu, hune⟩ := hcons
  have hslash : startsWithS req.path "/" = true := by
    unfold startsWithS
    rw [hu]
    exact List.isPrefixOf_iff_prefix.mpr ⟨u, rfl⟩
  have hdrop : req.path.data.drop 1 = u := by
    rw [hu]
    rfl
  have hsegs : pathSegments req.path = some ((splitOnChar '/' u).map String.mk) := by
    unfold pathSegments
    rw [if_pos hslash, hdrop]
  constructor
  · refine ⟨_, hsegs, ?_⟩
    have hne : (splitOnChar '/' u).map String.mk ≠ [] := by
      intro habs
      exact splitOnChar_ne_nil '/' u (List.map_eq_nil_iff.mp habs)
    obtain ⟨x, hx⟩ := Option.isSome_iff_exists.mp (List.getLast?_isSome.mpr hne)
    exact ⟨x, hx⟩
  · intro hend content
    obtain ⟨front, hfr⟩ := List.isSuffixOf_iff_suffix.mp hend
    rw [show ("/".data : List Char) = ['/'] from rfl, hu] at hfr
    cases front with
    | nil =>
      exfalso
      apply hune
      have h2 : ('/' : Char) :: ([] : List Char) = '/' :: u := hfr
      injection h2 with _ h3
      exact h3.symm
    | cons f fs =>
      have h2 : f :: (fs ++ ['/']) = '/' :: u := hfr
      injection h2 with hf hrest2
      have hlast : ((splitOnChar '/' u).map String.mk).getLast? = some (String.mk []) := by
        rw [← hrest2, splitOnChar_append_sep, List.map_append]
        exact List.getLast?_concat _
      rw [handle_static_eval content req _ (String.mk []) hsegs hlast]
      rw [if_neg (by decide : ¬ staticNames.contains (String.mk []) = true)]

/-- Request used to instantiate claim C10: a static path ending in a
slash. -/
def staticSlashReq : Request :=
  { method := "GET", scheme := "https", host := some "demo.fanoutcdn.com",
    path := "/test/static/", headers := [], body := [] }

/-- Claim C10 witness: the trailing-slash static request answers 404 with
an empty body. -/
theorem claim_C10_witness :
    handle_static (fun _ => []) staticSlashReq
      = some { status := 404, headers := [], body := [] } :=
  (claim_C10 staticSlashReq (Or.inl (by decide))).2 (by decide) (fun _ => [])

